import Mathlib

/-!
Verification of the zone-database lifecycle engine and AXFR-IN scheduler
(`src/knot/server/zones.c`) against its natural-language specification.

The embedding translates the C source shallowly:
* machine integers are `Nat`/`Int` with explicit `% 2^32` where the C code
  performs `uint32_t` arithmetic;
* pointers that may be `NULL` become `Option`;
* object identity (pointer equality) is modelled by an `id : Nat` field on
  zones;
* external collaborators whose source is not part of this slice of the
  repository (the `dnslib` zone database, the event scheduler `evsched`,
  `sockaddr`/ACL primitives, the compiled-zone reader `zload`) are modelled
  from the specification, as documented on each such definition;
* the environment record `recon_env_t` / `poll_env_t` carries the results of
  external calls (`stat` mtimes, address resolution, allocation success,
  `sendto` results), so every function is executable on concrete inputs.
-/

set_option autoImplicit false

namespace Zones

/-- Error taxonomy of `knot/other/error.h` as used by `zones.c`
(`KNOT_EOK`, `KNOT_EINVAL`, `KNOT_ENOMEM`, `KNOT_EZONEINVAL`, `KNOT_ERROR`). -/
inductive knot_error where
  | EOK
  | EINVAL
  | ENOMEM
  | EZONEINVAL
  | ERROR
deriving DecidableEq, Repr

/-- ACL actions (`ACL_DENY`, `ACL_ACCEPT`). -/
inductive acl_action where
  | ACL_DENY
  | ACL_ACCEPT
deriving DecidableEq, Repr

/-- Modelled from the spec: `sockaddr_t` (common/sockaddr.h, not in src/).
A socket address resolved from (family, address string, port); `ptr = 0`
models a NULL `.ptr`, i.e. an unset address — `zones_timers_update` checks
`zone->xfr_in.master.ptr == 0`. -/
structure sockaddr_t where
  family : Int
  address : String
  port : Nat
  ptr : Nat
deriving DecidableEq, Repr

/-- Modelled from the spec: `sockaddr_init(&addr, -1)` leaves the address
unset (family `-1`, NULL `ptr`). -/
def sockaddr_unset : sockaddr_t :=
  { family := -1, address := "", port := 0, ptr := 0 }

/-- One interface of the server's interface table: the UDP slots
`i->type[UDP_ID]` (address family) and `i->fd[UDP_ID]` (socket descriptor)
read by `zones_axfrin_poll`. -/
structure iface_t where
  family : Int
  fd : Int
deriving DecidableEq, Repr

/-- Modelled from the spec: one ACL rule, an (address, action) pair. -/
structure acl_rule_t where
  addr : sockaddr_t
  rule : acl_action
deriving DecidableEq, Repr

/-- Modelled from the spec: an ACL is an ordered rule list with a default
action. -/
structure acl_t where
  default_rule : acl_action
  rules : List acl_rule_t
deriving DecidableEq, Repr

/-- Modelled from the spec: `acl_new(default, 0)` allocates an empty ACL with
the given default action. -/
def acl_new (d : acl_action) : acl_t :=
  { default_rule := d, rules := [] }

/-- Modelled from the spec: `acl_create(acl, addr, rule)` appends a rule. -/
def acl_create (a : acl_t) (addr : sockaddr_t) (rule : acl_action) : acl_t :=
  { a with rules := a.rules ++ [{ addr := addr, rule := rule }] }

/-- Remote interface description from configuration (`conf_iface_t`). -/
structure conf_iface_t where
  family : Int
  address : String
  port : Nat
deriving DecidableEq, Repr

/-- One remote list entry from configuration (`conf_remote_t`). -/
structure conf_remote_t where
  remote : conf_iface_t
deriving DecidableEq, Repr

/-- The four configured ACL rule lists of a zone (`z->acl.*`). -/
structure conf_zone_acl_t where
  xfr_in : List conf_remote_t
  xfr_out : List conf_remote_t
  notify_in : List conf_remote_t
  notify_out : List conf_remote_t
deriving DecidableEq, Repr

/-- One configured zone (`conf_zone_t`): name, source-file path, compiled
database path (nullable), ACL rule lists. -/
structure conf_zone_t where
  name : String
  file : String
  db : Option String
  acl : conf_zone_acl_t
deriving DecidableEq, Repr

/-- The timer-relevant fields of the apex SOA RDATA (seconds, `uint32_t`).
Only the fields read by `zones.c` are modelled. -/
structure soa_rdata_t where
  refresh : Nat
  retry : Nat
  expire : Nat
deriving DecidableEq, Repr

/-- The four per-zone ACL slots (`zone->acl.*`); `none` models a NULL ACL
pointer. -/
structure zone_acl_slots_t where
  xfr_in : Option acl_t
  xfr_out : Option acl_t
  notify_in : Option acl_t
  notify_out : Option acl_t
deriving DecidableEq, Repr

/-- The AXFR-IN state of a zone (`zone->xfr_in`): master address, weak
reference to the server's interface table (`none` models NULL), POLL timer
handle, EXPIRE timer handle (`0` models a NULL event pointer), and the
in-flight SOA query ID (`-1` if none). -/
structure xfr_in_t where
  master : sockaddr_t
  ifaces : Option (List iface_t)
  timer : Nat
  expire : Nat
  next_id : Int
deriving DecidableEq, Repr

/-- Modelled from the spec: a `dnslib_zone_t` as used by `zones.c` — the apex
owner name, the apex SOA timer fields, the version stamp, the ACL slots and
the AXFR-IN state.  `id` models the object's address (pointer identity). -/
structure dnslib_zone_t where
  id : Nat
  name : String
  soa : soa_rdata_t
  version : Nat
  acl : zone_acl_slots_t
  xfr_in : xfr_in_t
deriving DecidableEq, Repr

/-- Modelled from the spec: a zone database is a mapping from domain name to
zone with unique keys (names are taken already in canonical form, so
`dnslib_dname_new_from_str` is the identity on them). -/
abbrev dnslib_zonedb_t := List (String × dnslib_zone_t)

/-- Modelled from the spec: `dnslib_zonedb_find_zone` — first entry with the
given name, or NULL. -/
def dnslib_zonedb_find_zone : dnslib_zonedb_t → String → Option dnslib_zone_t
  | [], _ => none
  | (k, z) :: rest, name =>
      if k = name then some z else dnslib_zonedb_find_zone rest name

/-- Modelled from the spec: `dnslib_zonedb_add_zone` keys the zone by its apex
owner name and fails if the name is already present (keys unique). -/
def dnslib_zonedb_add_zone (db : dnslib_zonedb_t) (z : dnslib_zone_t) :
    Option dnslib_zonedb_t :=
  match dnslib_zonedb_find_zone db z.name with
  | some _ => none
  | none => some (db ++ [(z.name, z)])

/-- Modelled from the spec: `dnslib_zonedb_remove_zone(db, name, 0)` removes
the entry with the given name without freeing the zone. -/
def dnslib_zonedb_remove_zone : dnslib_zonedb_t → String → dnslib_zonedb_t
  | [], _ => []
  | (k, z) :: rest, name =>
      if k = name then dnslib_zonedb_remove_zone rest name
      else (k, z) :: dnslib_zonedb_remove_zone rest name

/-- In-place mutation of the zone object reachable under `name`: replaces the
stored zone value at that key (the C code mutates through the pointer the
database holds). -/
def zonedb_replace : dnslib_zonedb_t → String → dnslib_zone_t → dnslib_zonedb_t
  | [], _, _ => []
  | (k, z) :: rest, name, znew =>
      if k = name then (k, znew) :: zonedb_replace rest name znew
      else (k, z) :: zonedb_replace rest name znew

/-- Which callback a scheduler event carries (`zones_axfrin_poll` or
`zones_axfrin_expire`). -/
inductive cb_t where
  | poll
  | expire
deriving DecidableEq, Repr

/-- Modelled from the spec: a scheduler event — identity (`id`, modelling the
event pointer, never `0`), callback, the zone it references (`e->data`) and
the delay it is scheduled at (milliseconds). -/
structure event_t where
  id : Nat
  cb : cb_t
  zid : Nat
  tmr : Nat
deriving DecidableEq, Repr

/-- Modelled from the spec: the shared event scheduler — the multiset of live
(pending) events plus a counter generating fresh event identities. -/
structure evsched_t where
  nextId : Nat
  events : List event_t
deriving DecidableEq, Repr

/-- A fresh scheduler with no live events. -/
def evsched_new : evsched_t :=
  { nextId := 0, events := [] }

/-- Modelled from the spec: `evsched_schedule_cb(sched, cb, data, ms)` creates
a new event and inserts it as live; returns the event (by its identity, which
is never `0` since a NULL pointer is modelled as `0`). -/
def evsched_schedule_cb (s : evsched_t) (cb : cb_t) (zid tmr : Nat) :
    evsched_t × Nat :=
  let eid := s.nextId + 1
  ({ nextId := eid, events := { id := eid, cb := cb, zid := zid, tmr := tmr } :: s.events }, eid)

/-- Modelled from the spec: `evsched_cancel(sched, ev)` removes the event from
the pending queue (freeing is a separate call and does not affect liveness). -/
def evsched_cancel (s : evsched_t) (eid : Nat) : evsched_t :=
  { s with events := s.events.filter (fun e => e.id ≠ eid) }

/-- Modelled from the spec: `evsched_schedule(sched, ev, ms)` (re)inserts an
existing event with a new delay. -/
def evsched_schedule (s : evsched_t) (e : event_t) (tmr : Nat) : evsched_t :=
  { s with events := { e with tmr := tmr } :: s.events.filter (fun x => x.id ≠ e.id) }

/-- The live POLL events of the scheduler that reference a given zone. -/
def sched_poll_events (s : evsched_t) (zid : Nat) : List event_t :=
  s.events.filter (fun e => e.cb = cb_t.poll ∧ e.zid = zid)

/-- The live EXPIRE events of the scheduler that reference a given zone. -/
def sched_expire_events (s : evsched_t) (zid : Nat) : List event_t :=
  s.events.filter (fun e => e.cb = cb_t.expire ∧ e.zid = zid)

/-- `zones_soa_timer`: read a `uint32_t` SOA field and convert to
milliseconds; the multiplication is `uint32_t` arithmetic, i.e. mod `2^32`. -/
def zones_soa_timer (zone : dnslib_zone_t) (rr_func : soa_rdata_t → Nat) : Nat :=
  rr_func zone.soa * 1000 % 2 ^ 32

/-- `zones_soa_refresh`: REFRESH timer in milliseconds. -/
def zones_soa_refresh (zone : dnslib_zone_t) : Nat :=
  zones_soa_timer zone soa_rdata_t.refresh

/-- `zones_soa_retry`: RETRY timer in milliseconds. -/
def zones_soa_retry (zone : dnslib_zone_t) : Nat :=
  zones_soa_timer zone soa_rdata_t.retry

/-- `zones_soa_expire`: EXPIRE timer in milliseconds. -/
def zones_soa_expire (zone : dnslib_zone_t) : Nat :=
  zones_soa_timer zone soa_rdata_t.expire

/-- `zones_axfrin_expire`: the EXPIRE event handler.  The fired event `e` has
already been popped from the pending queue; the handler cancels and frees the
POLL timer if set, frees itself, clears `expire` and resets `next_id`. -/
def zones_axfrin_expire (s : evsched_t) (zone : dnslib_zone_t) (_e : event_t) :
    evsched_t × dnslib_zone_t :=
  let p :=
    if zone.xfr_in.timer ≠ 0 then
      (evsched_cancel s zone.xfr_in.timer,
       { zone with xfr_in := { zone.xfr_in with timer := 0 } })
    else (s, zone)
  (p.1, { p.2 with xfr_in := { p.2.xfr_in with expire := 0, next_id := -1 } })

/-- Results of the external calls made by one run of `zones_axfrin_poll`:
the return value of `xfrin_create_soa_query` (`0` is `KNOT_EOK`), the
resulting query length and wire message ID, and the number of bytes `sendto`
transmits on a given socket (`-1` on failure). -/
structure poll_env_t where
  create_ret : Int
  buflen : Nat
  wire_id : Nat
  sendto : Int → Int

/-- The socket-selection loop of `zones_axfrin_poll`: `sock` starts at `-1`
and becomes the UDP descriptor of the first interface whose family matches
the master's. -/
def poll_find_sock : List iface_t → Int → Int
  | [], _ => -1
  | i :: rest, family => if i.family = family then i.fd else poll_find_sock rest family

/-- The value of `ret` in `zones_axfrin_poll` after the query-send block: if
the query was built and the interface table is non-NULL, `ret` is `-1`
without a matching socket and the `sendto` result otherwise; else `ret` keeps
the `xfrin_create_soa_query` return value. -/
def poll_send (env : poll_env_t) (zone : dnslib_zone_t) : Int :=
  if env.create_ret = 0 ∧ zone.xfr_in.ifaces.isSome then
    let sock := poll_find_sock (zone.xfr_in.ifaces.getD []) zone.xfr_in.master.family
    if sock > -1 then env.sendto sock else -1
  else env.create_ret

/-- `zones_axfrin_poll`: the POLL (REFRESH/RETRY) event handler.  The fired
event `e` has already been popped from the pending queue.  Stores the query
ID when the full buffer was sent, arms the EXPIRE timer on first firing, and
reschedules itself as the RETRY timer. -/
def zones_axfrin_poll (env : poll_env_t) (s : evsched_t) (zone : dnslib_zone_t)
    (e : event_t) : evsched_t × dnslib_zone_t × Int :=
  let ret := poll_send env zone
  let zone1 :=
    if ret = (env.buflen : Int) then
      { zone with xfr_in := { zone.xfr_in with next_id := (env.wire_id : Int) } }
    else zone
  let p :=
    if zone1.xfr_in.expire = 0 then
      let q := evsched_schedule_cb s cb_t.expire zone1.id (zones_soa_expire zone1)
      (q.1, { zone1 with xfr_in := { zone1.xfr_in with expire := q.2 } })
    else (s, zone1)
  (evsched_schedule p.1 e (zones_soa_retry p.2), p.2, ret)

/-- `zones_timers_update`: if no AXFR-IN master is configured, return at once;
otherwise schedule a fresh REFRESH (POLL) event, store its handle in
`xfr_in.timer`, and cancel+free any pending EXPIRE timer. -/
def zones_timers_update (s : evsched_t) (zone : dnslib_zone_t) :
    evsched_t × dnslib_zone_t :=
  if zone.xfr_in.master.ptr = 0 then (s, zone)
  else
    let q := evsched_schedule_cb s cb_t.poll zone.id (zones_soa_refresh zone)
    let zone1 := { zone with xfr_in := { zone.xfr_in with timer := q.2 } }
    if zone1.xfr_in.expire ≠ 0 then
      (evsched_cancel q.1 zone1.xfr_in.expire,
       { zone1 with xfr_in := { zone1.xfr_in with expire := 0 } })
    else (q.1, zone1)

/-- Results of the external calls made by the reconciler and its helpers:
`stat` mtimes, compiled-zone reader results (`zload_open` success and the
decoded zone's apex name and SOA fields), address-resolution success
(`sockaddr_set` returning a positive length) and ACL allocation success. -/
structure recon_env_t where
  mtime : String → Nat
  zload_open_ok : String → Bool
  zload_load : String → Option (String × soa_rdata_t)
  sockaddr_set_ok : Int → String → Nat → Bool
  acl_new_ok : Bool

/-- Modelled from the spec: `sockaddr_set(&addr, family, address, port)`
resolves the triple and returns a positive length exactly when resolution
succeeds; on success the address is set (non-NULL `ptr`). -/
def sockaddr_set (env : recon_env_t) (family : Int) (address : String) (port : Nat) :
    Option sockaddr_t :=
  if env.sockaddr_set_ok family address port then
    some { family := family, address := address, port := port, ptr := 1 }
  else none

/-- The rule-loading loop of `zones_set_acl`: walk the remote list and append
an ACCEPT rule for every remote whose address resolves. -/
def acl_load_rules (env : recon_env_t) (a : acl_t) : List conf_remote_t → acl_t
  | [] => a
  | r :: rest =>
      match sockaddr_set env r.remote.family r.remote.address r.remote.port with
      | some addr => acl_load_rules env (acl_create a addr acl_action.ACL_ACCEPT) rest
      | none => acl_load_rules env a rest

/-- `zones_set_acl(acl, acl_list)`: rebuild one ACL slot from a configuration
rule list.  The slot pointer and the list pointer are `Option`s (`none` =
NULL); the result carries the return code and the new slot contents. -/
def zones_set_acl (env : recon_env_t) (acl : Option (Option acl_t))
    (acl_list : Option (List conf_remote_t)) :
    knot_error × Option (Option acl_t) :=
  match acl, acl_list with
  | some _, some rules =>
      if env.acl_new_ok then
        (knot_error.EOK,
         some (some (acl_load_rules env (acl_new acl_action.ACL_DENY) rules)))
      else (knot_error.ENOMEM, some none)
  | _, _ => (knot_error.EINVAL, acl)

/-- The zone object produced by `dnslib_zload_load` and stamped by
`zones_load_zone`: fresh identity, decoded apex name and SOA fields, version
set to the compiled file's mtime, NULL ACLs and empty AXFR-IN state. -/
def zones_fresh_zone (env : recon_env_t) (fresh : Nat) (fn : String)
    (zd : String × soa_rdata_t) : dnslib_zone_t :=
  { id := fresh, name := zd.1, soa := zd.2, version := env.mtime fn,
    acl := { xfr_in := none, xfr_out := none,
             notify_in := none, notify_out := none },
    xfr_in := { master := sockaddr_unset, ifaces := none,
                timer := 0, expire := 0, next_id := -1 } }

/-- `zones_load_zone(zonedb, zone_name, source, filename)`: open the compiled
file, decode the zone, stamp its version from `stat(filename).st_mtime`, and
insert it into the database (deep-freeing it on insert failure).  `fresh` is
the next unused object identity; the freshly decoded zone consumes it. -/
def zones_load_zone (env : recon_env_t) (fresh : Nat) (zonedb : dnslib_zonedb_t)
    (_zone_name _source : String) (filename : Option String) :
    dnslib_zonedb_t × Nat × knot_error :=
  match filename with
  | some fn =>
      if env.zload_open_ok fn then
        match env.zload_load fn with
        | some zd =>
            match dnslib_zonedb_add_zone zonedb (zones_fresh_zone env fresh fn zd) with
            | some db2 => (db2, fresh + 1, knot_error.EOK)
            | none => (zonedb, fresh + 1, knot_error.EZONEINVAL)
        | none => (zonedb, fresh, knot_error.EZONEINVAL)
      else (zonedb, fresh, knot_error.EZONEINVAL)
  | none => (zonedb, fresh, knot_error.EINVAL)

/-- The master-address update of `zones_insert_zones`: `sockaddr_init` the
master to unset, then, if the configured `xfr_in` list is non-empty, set it
from the head remote's (family, address, port). -/
def zones_master_from_conf (env : recon_env_t) (rules : List conf_remote_t) :
    sockaddr_t :=
  match rules with
  | [] => sockaddr_unset
  | r :: _ =>
      match sockaddr_set env r.remote.family r.remote.address r.remote.port with
      | some a => a
      | none => sockaddr_unset

/-- The `if (zone)` block of `zones_insert_zones` (lines 394–417): rebuild the
`xfr_out`, `notify_in`, `notify_out` ACLs, install the interface-table
reference, reinitialize the master address from the configured `xfr_in` list,
and update the zone's timers. -/
def zones_update_zone (env : recon_env_t) (sch : evsched_t) (ifaces : List iface_t)
    (zone : dnslib_zone_t) (z : conf_zone_t) : evsched_t × dnslib_zone_t :=
  let xo := ((zones_set_acl env (some zone.acl.xfr_out) (some z.acl.xfr_out)).2).getD none
  let ni := ((zones_set_acl env (some zone.acl.notify_in) (some z.acl.notify_in)).2).getD none
  let no := ((zones_set_acl env (some zone.acl.notify_out) (some z.acl.notify_out)).2).getD none
  let zone1 := { zone with acl := { zone.acl with xfr_out := xo, notify_in := ni, notify_out := no } }
  let zone2 := { zone1 with xfr_in := { zone1.xfr_in with ifaces := some ifaces } }
  let zone3 := { zone2 with xfr_in := { zone2.xfr_in with
                   master := zones_master_from_conf env z.acl.xfr_in } }
  zones_timers_update sch zone3

/-- The reload decision of `zones_insert_zones`: reload when the zone is
absent from the old database or its stored version is older than the source
file's mtime. -/
def zones_reload_decision (env : recon_env_t) (db_old : dnslib_zonedb_t)
    (z : conf_zone_t) : Bool :=
  match dnslib_zonedb_find_zone db_old z.name with
  | some zone => decide (zone.version < env.mtime z.file)
  | none => true

/-- The running state of `zones_insert_zones`: the scheduler, the new
database, the next fresh object identity, and the inserted counter. -/
structure recon_state_t where
  sch : evsched_t
  db_new : dnslib_zonedb_t
  fresh : Nat
  inserted : Nat
deriving Repr

/-- The first half of one `WALK_LIST` iteration of `zones_insert_zones`: the
value of the C variable `zone` after the reload/carry-over branch (NULL when
nothing was obtained), together with the new database, the fresh-identity
counter and the updated inserted counter.  On reload the loader works on the
new database (which is unchanged unless the load succeeded); on carry-over
the old zone object is re-inserted (the `zone` variable keeps pointing at it
even when the insertion fails). -/
def zones_obtain_zone (env : recon_env_t) (db_old : dnslib_zonedb_t)
    (st : recon_state_t) (z : conf_zone_t) :
    Option dnslib_zone_t × dnslib_zonedb_t × Nat × Nat :=
  if zones_reload_decision env db_old z then
    let lr := zones_load_zone env st.fresh st.db_new z.name z.file z.db
    ((if lr.2.2 = knot_error.EOK then dnslib_zonedb_find_zone lr.1 z.name
      else dnslib_zonedb_find_zone db_old z.name),
     lr.1, lr.2.1,
     if lr.2.2 = knot_error.EOK then st.inserted + 1 else st.inserted)
  else
    match dnslib_zonedb_find_zone db_old z.name with
    | some zone =>
        match dnslib_zonedb_add_zone st.db_new zone with
        | some db2 => (some zone, db2, st.fresh, st.inserted + 1)
        | none => (some zone, st.db_new, st.fresh, st.inserted)
    | none => (none, st.db_new, st.fresh, st.inserted)

/-- One iteration of the `WALK_LIST` loop of `zones_insert_zones` for the
configured zone `z`: decide reload/carry-over, load or re-insert, and — if a
zone object was obtained (the C variable `zone` is non-NULL) — run the
ACL/master/timers update block on it, the mutation being visible through the
database entry that holds the object (identified by its `id`). -/
def zones_insert_step (env : recon_env_t) (ifaces : List iface_t)
    (db_old : dnslib_zonedb_t) (st : recon_state_t) (z : conf_zone_t) :
    recon_state_t :=
  match zones_obtain_zone env db_old st z with
  | (some zone, db2, fresh2, ins2) =>
      let uz := zones_update_zone env st.sch ifaces zone z
      let db3 :=
        match dnslib_zonedb_find_zone db2 z.name with
        | some w => if w.id = zone.id then zonedb_replace db2 z.name uz.2 else db2
        | none => db2
      { sch := uz.1, db_new := db3, fresh := fresh2, inserted := ins2 }
  | (none, db2, fresh2, ins2) =>
      { sch := st.sch, db_new := db2, fresh := fresh2, inserted := ins2 }

/-- `zones_insert_zones(ns, zone_conf, db_old, db_new)`: fill the new database
from the configuration, starting from an empty new database. -/
def zones_insert_zones (env : recon_env_t) (ifaces : List iface_t)
    (db_old : dnslib_zonedb_t) (conf : List conf_zone_t) (sch : evsched_t)
    (fresh : Nat) : recon_state_t :=
  conf.foldl (zones_insert_step env ifaces db_old)
    { sch := sch, db_new := [], fresh := fresh, inserted := 0 }

/-- `zones_remove_zones(zone_conf, db_old)`: remove every configured zone name
from the old database without freeing the zones. -/
def zones_remove_zones (conf : List conf_zone_t) (db_old : dnslib_zonedb_t) :
    dnslib_zonedb_t :=
  conf.foldl (fun db z => dnslib_zonedb_remove_zone db z.name) db_old

/-! ### Concrete inputs for counterexamples and witnesses -/

/-- SOA timer fields of the concrete scenarios (seconds). -/
def soa_ex : soa_rdata_t := { refresh := 3600, retry := 1800, expire := 7200 }

/-- An environment in which every external call succeeds and every file has
mtime 0; compiled files decode to nothing (no load path is exercised). -/
def env_all_ok : recon_env_t :=
  { mtime := fun _ => 0
    zload_open_ok := fun _ => true
    zload_load := fun _ => none
    sockaddr_set_ok := fun _ _ _ => true
    acl_new_ok := true }

/-- A configured remote (IPv4 master). -/
def remote_ex : conf_remote_t := { remote := { family := 4, address := "a", port := 53 } }

/-- A zone object with no master, no timers and NULL ACLs. -/
def zone_c1 : dnslib_zone_t :=
  { id := 1, name := "z", soa := soa_ex, version := 10,
    acl := { xfr_in := none, xfr_out := none, notify_in := none, notify_out := none },
    xfr_in := { master := sockaddr_unset, ifaces := none,
                timer := 0, expire := 0, next_id := -1 } }

/-- A configured zone whose `xfr_in` rule list is non-empty. -/
def conf_c1 : conf_zone_t :=
  { name := "z", file := "f", db := some "fdb",
    acl := { xfr_in := [remote_ex], xfr_out := [], notify_in := [], notify_out := [] } }

/-- A configured zone with all four rule lists empty. -/
def conf_c3 : conf_zone_t :=
  { name := "z", file := "f", db := some "fdb",
    acl := { xfr_in := [], xfr_out := [], notify_in := [], notify_out := [] } }

/-- A zone whose AXFR-IN master is set and which has no timers yet. -/
def zone_c2 : dnslib_zone_t :=
  { id := 2, name := "z", soa := soa_ex, version := 10,
    acl := { xfr_in := none, xfr_out := none, notify_in := none, notify_out := none },
    xfr_in := { master := { family := 4, address := "m", port := 53, ptr := 1 },
                ifaces := none, timer := 0, expire := 0, next_id := -1 } }

/-- A zone carried over from a previous configuration with a live POLL timer
(event 7) and a set master. -/
def zone_c3 : dnslib_zone_t :=
  { id := 3, name := "z", soa := soa_ex, version := 10,
    acl := { xfr_in := none, xfr_out := none, notify_in := none, notify_out := none },
    xfr_in := { master := { family := 4, address := "m", port := 53, ptr := 1 },
                ifaces := none, timer := 7, expire := 0, next_id := -1 } }

/-- The scheduler state in which zone `zone_c3`'s POLL event is live. -/
def sch_c3 : evsched_t :=
  { nextId := 7, events := [{ id := 7, cb := cb_t.poll, zid := 3, tmr := 3600000 }] }

/-- The old database holding the carried-over zone `zone_c3`. -/
def db_old_c3 : dnslib_zonedb_t := [("z", zone_c3)]

/-- Reconciler state at the start of `zone_c3`'s iteration. -/
def st0_c3 : recon_state_t :=
  { sch := sch_c3, db_new := [], fresh := 100, inserted := 0 }

/-- A zone whose SOA REFRESH is the largest 32-bit value. -/
def zone_big : dnslib_zone_t :=
  { id := 4, name := "z", soa := { refresh := 4294967295, retry := 1, expire := 1 },
    version := 10,
    acl := { xfr_in := none, xfr_out := none, notify_in := none, notify_out := none },
    xfr_in := { master := sockaddr_unset, ifaces := none,
                timer := 0, expire := 0, next_id := -1 } }

/-- Mixed-resolution environment for the C8 witness: only family-4 remotes
resolve. -/
def env_mixed : recon_env_t :=
  { mtime := fun _ => 0
    zload_open_ok := fun _ => true
    zload_load := fun _ => none
    sockaddr_set_ok := fun family _ _ => family == 4
    acl_new_ok := true }

/-- Rule list for the C8 witness: two resolvable remotes around one that
fails to resolve. -/
def rules_mixed : List conf_remote_t :=
  [ { remote := { family := 4, address := "a", port := 53 } },
    { remote := { family := 6, address := "b", port := 53 } },
    { remote := { family := 4, address := "c", port := 53 } } ]

/-- Environment for the C7 counterexample: the compiled file opens but does
not decode to a zone. -/
def env_nodecode : recon_env_t :=
  { mtime := fun _ => 5
    zload_open_ok := fun _ => true
    zload_load := fun _ => none
    sockaddr_set_ok := fun _ _ _ => true
    acl_new_ok := true }

/-- Environment for the C7 witness: the compiled file opens and decodes to
zone "z" with the example SOA; its mtime is 7. -/
def env_loads : recon_env_t :=
  { mtime := fun _ => 7
    zload_open_ok := fun _ => true
    zload_load := fun _ => some ("z", soa_ex)
    sockaddr_set_ok := fun _ _ _ => true
    acl_new_ok := true }

/-- Concrete poll environment: the query builds (30 bytes, wire ID 1234) and
`sendto` transmits the full buffer on any socket. -/
def penv_w : poll_env_t :=
  { create_ret := 0, buflen := 30, wire_id := 1234, sendto := fun _ => 30 }

/-- A zone in REFRESHING state: master set (IPv4), one matching interface,
POLL timer 5 live, no EXPIRE timer. -/
def zone_w9 : dnslib_zone_t :=
  { id := 5, name := "z", soa := soa_ex, version := 10,
    acl := { xfr_in := none, xfr_out := none, notify_in := none, notify_out := none },
    xfr_in := { master := { family := 4, address := "m", port := 53, ptr := 1 },
                ifaces := some [{ family := 4, fd := 9 }],
                timer := 5, expire := 0, next_id := -1 } }

/-- The POLL event of `zone_w9`, as popped by the scheduler when it fires. -/
def e_w9 : event_t := { id := 5, cb := cb_t.poll, zid := 5, tmr := 3600000 }

/-- Scheduler state at the firing of `e_w9` (the fired event is already
popped). -/
def sch_w9 : evsched_t := { nextId := 8, events := [] }

/-! ### Helper lemmas -/

theorem zones_timers_update_acl (s : evsched_t) (z : dnslib_zone_t) :
    (zones_timers_update s z).2.acl = z.acl := by
  by_cases h1 : z.xfr_in.master.ptr = 0 <;>
    by_cases h2 : z.xfr_in.expire = 0 <;>
      simp [zones_timers_update, h1, h2]

theorem zones_timers_update_master (s : evsched_t) (z : dnslib_zone_t) :
    (zones_timers_update s z).2.xfr_in.master = z.xfr_in.master := by
  by_cases h1 : z.xfr_in.master.ptr = 0 <;>
    by_cases h2 : z.xfr_in.expire = 0 <;>
      simp [zones_timers_update, h1, h2]

theorem zones_timers_update_id (s : evsched_t) (z : dnslib_zone_t) :
    (zones_timers_update s z).2.id = z.id := by
  by_cases h1 : z.xfr_in.master.ptr = 0 <;>
    by_cases h2 : z.xfr_in.expire = 0 <;>
      simp [zones_timers_update, h1, h2]

theorem zones_timers_update_name (s : evsched_t) (z : dnslib_zone_t) :
    (zones_timers_update s z).2.name = z.name := by
  by_cases h1 : z.xfr_in.master.ptr = 0 <;>
    by_cases h2 : z.xfr_in.expire = 0 <;>
      simp [zones_timers_update, h1, h2]

theorem zones_update_zone_id (env : recon_env_t) (sch : evsched_t)
    (ifaces : List iface_t) (zone : dnslib_zone_t) (z : conf_zone_t) :
    (zones_update_zone env sch ifaces zone z).2.id = zone.id := by
  unfold zones_update_zone
  rw [zones_timers_update_id]

theorem zones_update_zone_name (env : recon_env_t) (sch : evsched_t)
    (ifaces : List iface_t) (zone : dnslib_zone_t) (z : conf_zone_t) :
    (zones_update_zone env sch ifaces zone z).2.name = zone.name := by
  unfold zones_update_zone
  rw [zones_timers_update_name]

theorem acl_load_rules_spec (env : recon_env_t) (a : acl_t) (rules : List conf_remote_t) :
    acl_load_rules env a rules =
      { default_rule := a.default_rule,
        rules := a.rules ++
          (rules.filterMap
            (fun r => sockaddr_set env r.remote.family r.remote.address r.remote.port)).map
            (fun ad => { addr := ad, rule := acl_action.ACL_ACCEPT }) } := by
  induction rules generalizing a with
  | nil => simp [acl_load_rules]
  | cons r rest ih =>
      cases h : sockaddr_set env r.remote.family r.remote.address r.remote.port with
      | none => simp [acl_load_rules, h, ih]
      | some ad => simp [acl_load_rules, h, ih, acl_create]

theorem find_append (db1 db2 : dnslib_zonedb_t) (name : String) :
    dnslib_zonedb_find_zone (db1 ++ db2) name =
      match dnslib_zonedb_find_zone db1 name with
      | some z => some z
      | none => dnslib_zonedb_find_zone db2 name := by
  induction db1 with
  | nil => rfl
  | cons p rest ih =>
      obtain ⟨k, z⟩ := p
      by_cases hk : k = name <;>
        simp [dnslib_zonedb_find_zone, hk, ih]

theorem find_remove_self (db : dnslib_zonedb_t) (k : String) :
    dnslib_zonedb_find_zone (dnslib_zonedb_remove_zone db k) k = none := by
  induction db with
  | nil => rfl
  | cons p rest ih =>
      obtain ⟨k', z⟩ := p
      by_cases h : k' = k
      · simp [dnslib_zonedb_remove_zone, h, ih]
      · simp [dnslib_zonedb_remove_zone, dnslib_zonedb_find_zone, h, ih]

theorem find_remove_other (db : dnslib_zonedb_t) (k name : String) (h : k ≠ name) :
    dnslib_zonedb_find_zone (dnslib_zonedb_remove_zone db k) name =
      dnslib_zonedb_find_zone db name := by
  induction db with
  | nil => rfl
  | cons p rest ih =>
      obtain ⟨k', z⟩ := p
      by_cases hk : k' = k
      · subst hk
        simp [dnslib_zonedb_remove_zone, dnslib_zonedb_find_zone, h, ih]
      · by_cases hn : k' = name
        · subst hn
          simp [dnslib_zonedb_remove_zone, dnslib_zonedb_find_zone, hk]
        · simp [dnslib_zonedb_remove_zone, dnslib_zonedb_find_zone, hk, hn, ih]

theorem find_replace (db : dnslib_zonedb_t) (name : String) (z : dnslib_zone_t) :
    dnslib_zonedb_find_zone (zonedb_replace db name z) name =
      match dnslib_zonedb_find_zone db name with
      | some _ => some z
      | none => none := by
  induction db with
  | nil => rfl
  | cons p rest ih =>
      obtain ⟨k, w⟩ := p
      by_cases hk : k = name <;>
        simp [zonedb_replace, dnslib_zonedb_find_zone, hk, ih]

theorem find_replace_other (db : dnslib_zonedb_t) (k : String) (z : dnslib_zone_t)
    (name : String) (h : k ≠ name) :
    dnslib_zonedb_find_zone (zonedb_replace db k z) name =
      dnslib_zonedb_find_zone db name := by
  induction db with
  | nil => rfl
  | cons p rest ih =>
      obtain ⟨k', w⟩ := p
      by_cases hk : k' = k
      · subst hk
        simp [zonedb_replace, dnslib_zonedb_find_zone, h, ih]
      · by_cases hn : k' = name <;>
          simp [zonedb_replace, dnslib_zonedb_find_zone, hk, hn, Ne.symm h, ih]

theorem find_name (db : dnslib_zonedb_t) (name : String) (z : dnslib_zone_t)
    (hdb : ∀ p ∈ db, (p.2).name = p.1)
    (h : dnslib_zonedb_find_zone db name = some z) : z.name = name := by
  induction db with
  | nil => simp [dnslib_zonedb_find_zone] at h
  | cons p rest ih =>
      obtain ⟨k, w⟩ := p
      by_cases hk : k = name
      · simp only [dnslib_zonedb_find_zone, if_pos hk, Option.some.injEq] at h
        calc z.name = w.name := by rw [h]
          _ = k := hdb (k, w) (by simp)
          _ = name := hk
      · simp only [dnslib_zonedb_find_zone, if_neg hk] at h
        exact ih (fun p hp => hdb p (by simp [hp])) h

theorem find_append_one (db : dnslib_zonedb_t) (k : String) (v : dnslib_zone_t)
    (name : String) (h : k ≠ name) :
    dnslib_zonedb_find_zone (db ++ [(k, v)]) name =
      dnslib_zonedb_find_zone db name := by
  rw [find_append]
  cases hf : dnslib_zonedb_find_zone db name <;>
    simp [dnslib_zonedb_find_zone, h]

theorem zones_load_zone_find_other (env : recon_env_t) (fresh : Nat)
    (db : dnslib_zonedb_t) (zn src : String) (fno : Option String) (name : String)
    (hload : ∀ fn zd, fno = some fn → env.zload_load fn = some zd → zd.1 ≠ name) :
    dnslib_zonedb_find_zone (zones_load_zone env fresh db zn src fno).1 name =
      dnslib_zonedb_find_zone db name := by
  cases fno with
  | none => rfl
  | some fn =>
      simp only [zones_load_zone]
      by_cases hop : env.zload_open_ok fn
      · simp only [hop, if_true]
        cases hld : env.zload_load fn with
        | none => rfl
        | some zd =>
            have hne : zd.1 ≠ name := hload fn zd rfl hld
            dsimp only
            cases hadd : dnslib_zonedb_add_zone db (zones_fresh_zone env fresh fn zd) with
            | none => rfl
            | some db2 =>
                dsimp only
                simp only [dnslib_zonedb_add_zone] at hadd
                revert hadd
                cases hf : dnslib_zonedb_find_zone db (zones_fresh_zone env fresh fn zd).name
                · intro hadd
                  cases hadd
                  exact find_append_one db _ _ name (by simpa [zones_fresh_zone] using hne)
                · intro hadd
                  cases hadd
      · simp [hop]

theorem zones_obtain_zone_find_other (env : recon_env_t)
    (db_old : dnslib_zonedb_t) (st : recon_state_t) (z : conf_zone_t) (name : String)
    (hne : z.name ≠ name)
    (hload : ∀ fn zd, z.db = some fn → env.zload_load fn = some zd → zd.1 = z.name)
    (hdb : ∀ p ∈ db_old, (p.2).name = p.1) :
    dnslib_zonedb_find_zone (zones_obtain_zone env db_old st z).2.1 name =
      dnslib_zonedb_find_zone st.db_new name := by
  unfold zones_obtain_zone
  by_cases hdec : zones_reload_decision env db_old z
  · simp only [hdec, if_true]
    exact zones_load_zone_find_other env st.fresh st.db_new z.name z.file z.db name
      (fun fn zd hfn hld => (hload fn zd hfn hld) ▸ hne)
  · simp only [hdec, if_false, Bool.false_eq_true]
    cases hf : dnslib_zonedb_find_zone db_old z.name with
    | none => rfl
    | some zone =>
        have hzname : zone.name = z.name := find_name db_old z.name zone hdb hf
        dsimp only
        cases hadd : dnslib_zonedb_add_zone st.db_new zone with
        | none => rfl
        | some db2 =>
            dsimp only
            simp only [dnslib_zonedb_add_zone] at hadd
            revert hadd
            cases hg : dnslib_zonedb_find_zone st.db_new zone.name
            · intro hadd
              cases hadd
              exact find_append_one st.db_new _ _ name (hzname ▸ hne)
            · intro hadd
              cases hadd

theorem zones_insert_step_find_other (env : recon_env_t) (ifaces : List iface_t)
    (db_old : dnslib_zonedb_t) (st : recon_state_t) (z : conf_zone_t) (name : String)
    (hne : z.name ≠ name)
    (hload : ∀ fn zd, z.db = some fn → env.zload_load fn = some zd → zd.1 = z.name)
    (hdb : ∀ p ∈ db_old, (p.2).name = p.1) :
    dnslib_zonedb_find_zone (zones_insert_step env ifaces db_old st z).db_new name =
      dnslib_zonedb_find_zone st.db_new name := by
  have hob := zones_obtain_zone_find_other env db_old st z name hne hload hdb
  unfold zones_insert_step
  cases hmid : zones_obtain_zone env db_old st z with
  | mk zopt rest =>
      obtain ⟨db2, fresh2, ins2⟩ := rest
      rw [hmid] at hob
      cases zopt with
      | none => exact hob
      | some zone =>
          simp only
          cases hw : dnslib_zonedb_find_zone db2 z.name with
          | none => exact hob
          | some w =>
              by_cases hid : w.id = zone.id
              · simp only [hid, if_true]
                rw [find_replace_other db2 z.name _ name hne]
                exact hob
              · simp only [hid, if_false]
                exact hob

theorem zones_insert_fold_find_other (env : recon_env_t) (ifaces : List iface_t)
    (db_old : dnslib_zonedb_t) (L : List conf_zone_t) (st : recon_state_t) (name : String)
    (hne : ∀ z' ∈ L, z'.name ≠ name)
    (hload : ∀ z' ∈ L, ∀ fn zd, z'.db = some fn → env.zload_load fn = some zd → zd.1 = z'.name)
    (hdb : ∀ p ∈ db_old, (p.2).name = p.1) :
    dnslib_zonedb_find_zone
        (L.foldl (zones_insert_step env ifaces db_old) st).db_new name =
      dnslib_zonedb_find_zone st.db_new name := by
  induction L generalizing st with
  | nil => rfl
  | cons z' L ih =>
      rw [List.foldl_cons]
      rw [ih (zones_insert_step env ifaces db_old st z')
            (fun a ha => hne a (List.mem_cons_of_mem z' ha))
            (fun a ha => hload a (List.mem_cons_of_mem z' ha))]
      exact zones_insert_step_find_other env ifaces db_old st z' name
        (hne z' (List.mem_cons_self z' L))
        (hload z' (List.mem_cons_self z' L)) hdb

theorem zones_insert_step_carry (env : recon_env_t) (ifaces : List iface_t)
    (db_old : dnslib_zonedb_t) (st : recon_state_t) (z : conf_zone_t)
    (zo : dnslib_zone_t)
    (hfound : dnslib_zonedb_find_zone db_old z.name = some zo)
    (hname : zo.name = z.name)
    (hnew : dnslib_zonedb_find_zone st.db_new z.name = none)
    (hdec : zones_reload_decision env db_old z = false) :
    dnslib_zonedb_find_zone (zones_insert_step env ifaces db_old st z).db_new z.name =
      some (zones_update_zone env st.sch ifaces zo z).2 := by
  have hmid : zones_obtain_zone env db_old st z =
      (some zo, st.db_new ++ [(zo.name, zo)], st.fresh, st.inserted + 1) := by
    unfold zones_obtain_zone
    rw [hdec]
    simp only [Bool.false_eq_true, if_false, hfound, dnslib_zonedb_add_zone,
      hname, hnew]
  have hf2 : dnslib_zonedb_find_zone (st.db_new ++ [(zo.name, zo)]) z.name = some zo := by
    rw [find_append, hnew]
    simp [dnslib_zonedb_find_zone, hname]
  unfold zones_insert_step
  rw [hmid]
  dsimp only
  rw [hf2]
  dsimp only
  rw [if_pos rfl, find_replace, hf2]

/-! ### Claim theorems -/

/-- Claim C1, counterexample: processing a configured zone with a non-empty
`xfr_in` rule list leaves the zone's `xfr_in` ACL slot untouched (NULL here)
instead of rebuilding it through the ACL builder, so not all four ACLs are
rebuilt. -/
theorem zones_update_zone_xfr_in_not_rebuilt :
    (zones_update_zone env_all_ok evsched_new [] zone_c1 conf_c1).2.acl.xfr_in ≠
      ((zones_set_acl env_all_ok (some zone_c1.acl.xfr_in) (some conf_c1.acl.xfr_in)).2).getD none := by
  decide

/-- Claim C1, amended: for every zone object obtained by the reconciler, the
`xfr_out`, `notify_in` and `notify_out` ACLs are rebuilt from the
corresponding configuration rule lists via the ACL builder before timers are
updated, the master address is set from the `xfr_in` rule list, but the
`xfr_in` ACL slot itself is left unchanged (it is never rebuilt). -/
theorem zones_update_zone_acl_rebuild (env : recon_env_t) (sch : evsched_t)
    (ifaces : List iface_t) (zone : dnslib_zone_t) (z : conf_zone_t) :
    (zones_update_zone env sch ifaces zone z).2.acl.xfr_out =
      ((zones_set_acl env (some zone.acl.xfr_out) (some z.acl.xfr_out)).2).getD none
    ∧ (zones_update_zone env sch ifaces zone z).2.acl.notify_in =
      ((zones_set_acl env (some zone.acl.notify_in) (some z.acl.notify_in)).2).getD none
    ∧ (zones_update_zone env sch ifaces zone z).2.acl.notify_out =
      ((zones_set_acl env (some zone.acl.notify_out) (some z.acl.notify_out)).2).getD none
    ∧ (zones_update_zone env sch ifaces zone z).2.acl.xfr_in = zone.acl.xfr_in
    ∧ (zones_update_zone env sch ifaces zone z).2.xfr_in.master =
      zones_master_from_conf env z.acl.xfr_in := by
  unfold zones_update_zone
  refine ⟨?_, ?_, ?_, ?_, ?_⟩ <;>
    simp [zones_timers_update_acl, zones_timers_update_master]

/-- Claim C2: `zones_timers_update` on a zone whose POLL timer is already live
schedules a second POLL event without cancelling the first, so two live POLL
events reference the zone — the at-most-one-POLL-timer invariant is violated
by the code. -/
theorem zones_timers_update_double_poll :
    (sched_poll_events
      (zones_timers_update (zones_timers_update evsched_new zone_c2).1
        (zones_timers_update evsched_new zone_c2).2).1 zone_c2.id).length = 2 := by
  decide

/-- Claim C3, counterexample: a zone carried over from a database in which a
POLL timer had been armed, reconciled under a configuration with an empty
`xfr_in` list, still has its old POLL event live in the scheduler after the
reconciler has processed it. -/
theorem zones_insert_step_keeps_stale_poll :
    sched_poll_events (zones_insert_step env_all_ok [] db_old_c3 st0_c3 conf_c3).sch
      zone_c3.id ≠ [] := by
  decide

/-- Claim C3, amended: for every zone processed by the reconciler under a
configuration whose `xfr_in` rule list is empty, the master address is left
unset and `zones_timers_update` arms nothing — the scheduler is completely
unchanged and the zone's timer handles keep their previous values (in
particular, timers armed under a previous configuration are not cancelled). -/
theorem zones_update_zone_empty_xfr_in (env : recon_env_t) (sch : evsched_t)
    (ifaces : List iface_t) (zone : dnslib_zone_t) (z : conf_zone_t)
    (h : z.acl.xfr_in = []) :
    (zones_update_zone env sch ifaces zone z).2.xfr_in.master.ptr = 0
    ∧ (zones_update_zone env sch ifaces zone z).1 = sch
    ∧ (zones_update_zone env sch ifaces zone z).2.xfr_in.timer = zone.xfr_in.timer
    ∧ (zones_update_zone env sch ifaces zone z).2.xfr_in.expire = zone.xfr_in.expire := by
  unfold zones_update_zone
  simp [h, zones_master_from_conf, zones_timers_update, sockaddr_unset]

/-- Witness for the amended claim C3 at a concrete input. -/
theorem zones_update_zone_empty_xfr_in_witness :
    (zones_update_zone env_all_ok evsched_new [] zone_c3 conf_c3).2.xfr_in.master.ptr = 0
    ∧ (zones_update_zone env_all_ok evsched_new [] zone_c3 conf_c3).1 = evsched_new
    ∧ (zones_update_zone env_all_ok evsched_new [] zone_c3 conf_c3).2.xfr_in.timer =
      zone_c3.xfr_in.timer
    ∧ (zones_update_zone env_all_ok evsched_new [] zone_c3 conf_c3).2.xfr_in.expire =
      zone_c3.xfr_in.expire :=
  zones_update_zone_empty_xfr_in env_all_ok evsched_new [] zone_c3 conf_c3 rfl

/-- Claim C4, counterexample: the SOA timer extractor computes the
milliseconds value in `uint32_t` arithmetic, so for REFRESH = 2^32 − 1 the
result is not 1000·REFRESH (the product wraps modulo 2^32). -/
theorem zones_soa_refresh_wraps :
    zones_soa_refresh zone_big ≠ 4294967295 * 1000 := by
  decide

/-- Claim C4, amended: for every zone, the SOA timer extractor returns
REFRESH·1000, RETRY·1000 and EXPIRE·1000 reduced modulo 2^32 (`uint32_t`
multiplication); whenever the product fits in 32 bits it equals the exact
1000·field value. -/
theorem zones_soa_timer_values (zone : dnslib_zone_t) :
    zones_soa_refresh zone = zone.soa.refresh * 1000 % 2 ^ 32
    ∧ zones_soa_retry zone = zone.soa.retry * 1000 % 2 ^ 32
    ∧ zones_soa_expire zone = zone.soa.expire * 1000 % 2 ^ 32
    ∧ (zone.soa.refresh * 1000 < 2 ^ 32 →
        zones_soa_refresh zone = zone.soa.refresh * 1000)
    ∧ (zone.soa.retry * 1000 < 2 ^ 32 →
        zones_soa_retry zone = zone.soa.retry * 1000)
    ∧ (zone.soa.expire * 1000 < 2 ^ 32 →
        zones_soa_expire zone = zone.soa.expire * 1000) := by
  refine ⟨rfl, rfl, rfl, ?_, ?_, ?_⟩ <;> intro h <;>
    simp [zones_soa_refresh, zones_soa_retry, zones_soa_expire, zones_soa_timer,
          Nat.mod_eq_of_lt h] <;> omega

/-- Witness for the amended claim C4 at a concrete zone (REFRESH = 3600 s). -/
theorem zones_soa_timer_values_witness :
    zones_soa_refresh zone_c1 = 3600 * 1000 :=
  (zones_soa_timer_values zone_c1).2.2.2.1 (by decide)

/-- Claim C6: after `zones_remove_zones(conf, old)` the old database contains
exactly the zones whose name is not configured — lookup of a configured name
yields nothing, lookup of any other name is unchanged. -/
theorem zones_remove_zones_exact (conf : List conf_zone_t)
    (db_old : dnslib_zonedb_t) (name : String) :
    dnslib_zonedb_find_zone (zones_remove_zones conf db_old) name =
      if name ∈ conf.map conf_zone_t.name then none
      else dnslib_zonedb_find_zone db_old name := by
  induction conf generalizing db_old with
  | nil => simp [zones_remove_zones]
  | cons z conf ih =>
      show dnslib_zonedb_find_zone
        (zones_remove_zones conf (dnslib_zonedb_remove_zone db_old z.name)) name = _
      rw [ih]
      by_cases hmem : name ∈ conf.map conf_zone_t.name
      · simp [hmem]
      · by_cases hz : name = z.name
        · subst hz
          simp [hmem, find_remove_self]
        · simp [hmem, hz, find_remove_other db_old z.name name (Ne.symm hz)]

/-- Claim C8: the ACL rebuild returns `INVALID_PARAM` on a NULL slot pointer
or NULL rule list (slot unchanged), `OUT_OF_MEMORY` when allocating the new
ACL fails, and otherwise `OK` having installed a fresh default-DENY ACL whose
rules are ACCEPT entries for exactly the configured remotes whose address
resolution succeeded, in order — failing rules are skipped, not fatal. -/
theorem zones_set_acl_spec (env : recon_env_t) (acl : Option (Option acl_t))
    (acl_list : Option (List conf_remote_t)) :
    ((acl = none ∨ acl_list = none) →
      zones_set_acl env acl acl_list = (knot_error.EINVAL, acl))
    ∧ (∀ s rules, acl = some s → acl_list = some rules → env.acl_new_ok = false →
        zones_set_acl env acl acl_list = (knot_error.ENOMEM, some none))
    ∧ (∀ s rules, acl = some s → acl_list = some rules → env.acl_new_ok = true →
        zones_set_acl env acl acl_list =
          (knot_error.EOK, some (some
            { default_rule := acl_action.ACL_DENY,
              rules := (rules.filterMap (fun r =>
                  sockaddr_set env r.remote.family r.remote.address r.remote.port)).map
                (fun ad => { addr := ad, rule := acl_action.ACL_ACCEPT }) }))) := by
  refine ⟨?_, ?_, ?_⟩
  · rintro (rfl | rfl)
    · rfl
    · cases acl <;> rfl
  · rintro s rules rfl rfl hmem
    simp [zones_set_acl, hmem]
  · rintro s rules rfl rfl hmem
    simp [zones_set_acl, hmem, acl_load_rules_spec, acl_new]

/-- Witness for claim C8: the rebuilt ACL contains ACCEPT rules for exactly
the two resolvable remotes, in order, under a default-DENY ACL. -/
theorem zones_set_acl_spec_witness :
    zones_set_acl env_mixed (some none) (some rules_mixed) =
      (knot_error.EOK, some (some
        { default_rule := acl_action.ACL_DENY,
          rules := [ { addr := { family := 4, address := "a", port := 53, ptr := 1 },
                       rule := acl_action.ACL_ACCEPT },
                     { addr := { family := 4, address := "c", port := 53, ptr := 1 },
                       rule := acl_action.ACL_ACCEPT } ] })) := by
  have h := (zones_set_acl_spec env_mixed (some none) (some rules_mixed)).2.2
    none rules_mixed rfl rfl rfl
  exact h.trans (by decide)

/-- Claim C7, counterexample: with a non-null compiled path that opens
successfully and no insertion failure (decoding fails before any insertion is
attempted), the loader still returns `ZONE_INVALID`, not `OK` — the claim's
case analysis misses the decode-failure case. -/
theorem zones_load_zone_decode_failure :
    env_nodecode.zload_open_ok "d" = true
    ∧ (zones_load_zone env_nodecode 0 [] "z" "s" (some "d")).2.2 = knot_error.EZONEINVAL
    ∧ (zones_load_zone env_nodecode 0 [] "z" "s" (some "d")).2.2 ≠ knot_error.EOK := by
  refine ⟨rfl, rfl, ?_⟩
  decide

/-- Claim C7, amended: the loader fails `INVALID_PARAM` exactly when the
compiled path is null; with a non-null path it fails `ZONE_INVALID` when the
compiled file cannot be opened or when decoding yields no zone, and when
insertion of the decoded zone fails it deep-frees the zone (the database is
unchanged) and fails `ZONE_INVALID`; otherwise it returns `OK` having
appended the zone with its version stamped from the compiled file's mtime. -/
theorem zones_load_zone_spec (env : recon_env_t) (fresh : Nat)
    (db : dnslib_zonedb_t) (zn src : String) (fno : Option String) :
    ((zones_load_zone env fresh db zn src fno).2.2 = knot_error.EINVAL ↔ fno = none)
    ∧ (∀ fn, fno = some fn → env.zload_open_ok fn = false →
        zones_load_zone env fresh db zn src fno = (db, fresh, knot_error.EZONEINVAL))
    ∧ (∀ fn, fno = some fn → env.zload_open_ok fn = true → env.zload_load fn = none →
        zones_load_zone env fresh db zn src fno = (db, fresh, knot_error.EZONEINVAL))
    ∧ (∀ fn zd, fno = some fn → env.zload_open_ok fn = true →
        env.zload_load fn = some zd →
        (dnslib_zonedb_find_zone db zd.1).isSome = true →
        zones_load_zone env fresh db zn src fno = (db, fresh + 1, knot_error.EZONEINVAL))
    ∧ (∀ fn zd, fno = some fn → env.zload_open_ok fn = true →
        env.zload_load fn = some zd →
        dnslib_zonedb_find_zone db zd.1 = none →
        zones_load_zone env fresh db zn src fno =
          (db ++ [(zd.1, zones_fresh_zone env fresh fn zd)], fresh + 1, knot_error.EOK)
        ∧ (zones_fresh_zone env fresh fn zd).version = env.mtime fn
        ∧ dnslib_zonedb_find_zone (db ++ [(zd.1, zones_fresh_zone env fresh fn zd)]) zd.1 =
            some (zones_fresh_zone env fresh fn zd)) := by
  refine ⟨?_, ?_, ?_, ?_, ?_⟩
  · cases fno with
    | none => simp [zones_load_zone]
    | some fn =>
        simp only [zones_load_zone]
        by_cases hop : env.zload_open_ok fn
        · simp only [hop, if_true]
          cases hld : env.zload_load fn with
          | none => simp
          | some zd =>
              cases hadd : dnslib_zonedb_add_zone db (zones_fresh_zone env fresh fn zd) with
              | none => simp [hadd]
              | some db2 => simp [hadd]
        · simp [hop]
  · rintro fn rfl hop
    simp [zones_load_zone, hop]
  · rintro fn rfl hop hld
    simp [zones_load_zone, hop, hld]
  · rintro fn zd rfl hop hld hfind
    rw [Option.isSome_iff_exists] at hfind
    obtain ⟨w, hw⟩ := hfind
    simp [zones_load_zone, hop, hld, dnslib_zonedb_add_zone, zones_fresh_zone, hw]
  · rintro fn zd rfl hop hld hfind
    refine ⟨?_, rfl, ?_⟩
    · simp [zones_load_zone, hop, hld, dnslib_zonedb_add_zone, zones_fresh_zone, hfind]
    · rw [find_append, hfind]
      simp [dnslib_zonedb_find_zone]

/-- Witness for the amended claim C7: a successful load appends the decoded
zone stamped with the compiled file's mtime. -/
theorem zones_load_zone_spec_witness :
    zones_load_zone env_loads 0 [] "z" "s" (some "d") =
      ([("z", zones_fresh_zone env_loads 0 "d" ("z", soa_ex))], 1, knot_error.EOK)
    ∧ (zones_fresh_zone env_loads 0 "d" ("z", soa_ex)).version = env_loads.mtime "d"
    ∧ dnslib_zonedb_find_zone [("z", zones_fresh_zone env_loads 0 "d" ("z", soa_ex))] "z" =
        some (zones_fresh_zone env_loads 0 "d" ("z", soa_ex)) := by
  have h := (zones_load_zone_spec env_loads 0 [] "z" "s" (some "d")).2.2.2.2
    "d" ("z", soa_ex) rfl rfl rfl rfl
  simpa using h

theorem poll_send_eq_buflen (env : poll_env_t) (zone : dnslib_zone_t)
    (hbl : 0 < env.buflen) (hcr : env.create_ret ≤ 0) :
    poll_send env zone = (env.buflen : Int) ↔
      env.create_ret = 0 ∧ zone.xfr_in.ifaces.isSome = true
      ∧ poll_find_sock (zone.xfr_in.ifaces.getD []) zone.xfr_in.master.family > -1
      ∧ env.sendto (poll_find_sock (zone.xfr_in.ifaces.getD []) zone.xfr_in.master.family) =
          (env.buflen : Int) := by
  have hb : (0 : Int) < (env.buflen : Int) := by exact_mod_cast hbl
  unfold poll_send
  by_cases hc : env.create_ret = 0 ∧ zone.xfr_in.ifaces.isSome = true
  · obtain ⟨hc1, hc2⟩ := hc
    simp only [hc1, hc2, and_true, true_and, if_true]
    by_cases hs : poll_find_sock (zone.xfr_in.ifaces.getD []) zone.xfr_in.master.family > -1
    · simp [hs]
    · simp only [hs, if_false, false_and, iff_false]
      omega
  · have : ¬ (env.create_ret = 0 ∧ zone.xfr_in.ifaces.isSome) := by simpa using hc
    simp only [this, if_false]
    constructor
    · intro h
      omega
    · rintro ⟨h1, h2, -, -⟩
      exact absurd ⟨h1, h2⟩ hc

/-- Claim C9: on every POLL firing the EXPIRE timer is armed (at the
SOA-EXPIRE milliseconds value, referencing the zone) exactly when no EXPIRE
timer is currently armed, and the fired POLL event itself is rescheduled at
the SOA-RETRY milliseconds value in every case — no hypothesis about
interface lookup or send success is needed for the reschedule. -/
theorem zones_axfrin_poll_timers (env : poll_env_t) (s : evsched_t)
    (zone : dnslib_zone_t) (e : event_t)
    (hcb : e.cb = cb_t.poll) (_hzid : e.zid = zone.id)
    (hfresh : e.id ≠ s.nextId + 1)
    (hpop : ∀ ev ∈ s.events, ev.id ≠ e.id) :
    (zone.xfr_in.expire = 0 →
      (zones_axfrin_poll env s zone e).2.1.xfr_in.expire = s.nextId + 1
      ∧ s.nextId + 1 ≠ 0
      ∧ ({ id := s.nextId + 1, cb := cb_t.expire, zid := zone.id,
           tmr := zones_soa_expire zone } : event_t) ∈
          (zones_axfrin_poll env s zone e).1.events)
    ∧ (zone.xfr_in.expire ≠ 0 →
      (zones_axfrin_poll env s zone e).2.1.xfr_in.expire = zone.xfr_in.expire
      ∧ sched_expire_events (zones_axfrin_poll env s zone e).1 zone.id =
          sched_expire_events s zone.id)
    ∧ ({ e with tmr := zones_soa_retry zone } : event_t) ∈
        (zones_axfrin_poll env s zone e).1.events := by
  have hflt : s.events.filter (fun x => x.id ≠ e.id) = s.events :=
    List.filter_eq_self.mpr (fun a ha => by simpa using hpop a ha)
  by_cases hsend : poll_send env zone = (env.buflen : Int) <;>
    by_cases hexp : zone.xfr_in.expire = 0 <;>
      simp [zones_axfrin_poll, evsched_schedule, evsched_schedule_cb,
            sched_expire_events, zones_soa_retry, zones_soa_expire, zones_soa_timer,
            hsend, hexp, hflt, hcb, hfresh, Ne.symm hfresh, List.filter_cons] <;>
      exact List.filter_congr (fun a ha => by simp [hpop a ha])

/-- Witness for claim C9 at the concrete firing of `e_w9`. -/
theorem zones_axfrin_poll_timers_witness :
    (zone_w9.xfr_in.expire = 0 →
      (zones_axfrin_poll penv_w sch_w9 zone_w9 e_w9).2.1.xfr_in.expire = sch_w9.nextId + 1
      ∧ sch_w9.nextId + 1 ≠ 0
      ∧ ({ id := sch_w9.nextId + 1, cb := cb_t.expire, zid := zone_w9.id,
           tmr := zones_soa_expire zone_w9 } : event_t) ∈
          (zones_axfrin_poll penv_w sch_w9 zone_w9 e_w9).1.events)
    ∧ (zone_w9.xfr_in.expire ≠ 0 →
      (zones_axfrin_poll penv_w sch_w9 zone_w9 e_w9).2.1.xfr_in.expire = zone_w9.xfr_in.expire
      ∧ sched_expire_events (zones_axfrin_poll penv_w sch_w9 zone_w9 e_w9).1 zone_w9.id =
          sched_expire_events sch_w9 zone_w9.id)
    ∧ ({ e_w9 with tmr := zones_soa_retry zone_w9 } : event_t) ∈
        (zones_axfrin_poll penv_w sch_w9 zone_w9 e_w9).1.events :=
  zones_axfrin_poll_timers penv_w sch_w9 zone_w9 e_w9 rfl rfl (by decide)
    (by intro ev hev; simp [sch_w9] at hev)

/-- Claim C10: on a POLL firing, `next_id` is overwritten with the query's
wire ID only when the query was built, an interface of the master's family
was found and `sendto` transmitted the full buffer; with no matching
interface, or a failed or short send, `next_id` keeps its previous value, and
the `timer`, `master` and `ifaces` fields of `xfr_in` are unchanged in every
case. -/
theorem zones_axfrin_poll_frame (env : poll_env_t) (s : evsched_t)
    (zone : dnslib_zone_t) (e : event_t)
    (hbl : 0 < env.buflen) (hcr : env.create_ret ≤ 0) :
    ((zones_axfrin_poll env s zone e).2.1.xfr_in.next_id = zone.xfr_in.next_id
      ∨ (env.create_ret = 0 ∧ zone.xfr_in.ifaces.isSome = true
         ∧ poll_find_sock (zone.xfr_in.ifaces.getD []) zone.xfr_in.master.family > -1
         ∧ env.sendto (poll_find_sock (zone.xfr_in.ifaces.getD []) zone.xfr_in.master.family) =
             (env.buflen : Int)
         ∧ (zones_axfrin_poll env s zone e).2.1.xfr_in.next_id = (env.wire_id : Int)))
    ∧ (poll_find_sock (zone.xfr_in.ifaces.getD []) zone.xfr_in.master.family = -1 →
        (zones_axfrin_poll env s zone e).2.1.xfr_in.next_id = zone.xfr_in.next_id)
    ∧ (env.sendto (poll_find_sock (zone.xfr_in.ifaces.getD []) zone.xfr_in.master.family) ≠
          (env.buflen : Int) →
        (zones_axfrin_poll env s zone e).2.1.xfr_in.next_id = zone.xfr_in.next_id)
    ∧ (zones_axfrin_poll env s zone e).2.1.xfr_in.timer = zone.xfr_in.timer
    ∧ (zones_axfrin_poll env s zone e).2.1.xfr_in.master = zone.xfr_in.master
    ∧ (zones_axfrin_poll env s zone e).2.1.xfr_in.ifaces = zone.xfr_in.ifaces := by
  by_cases hsend : poll_send env zone = (env.buflen : Int)
  · have hch := (poll_send_eq_buflen env zone hbl hcr).mp hsend
    obtain ⟨h1, h2, h3, h4⟩ := hch
    have hnid : (zones_axfrin_poll env s zone e).2.1.xfr_in.next_id = (env.wire_id : Int) := by
      by_cases hexp : zone.xfr_in.expire = 0 <;> simp [zones_axfrin_poll, hsend, hexp]
    have hframe : (zones_axfrin_poll env s zone e).2.1.xfr_in.timer = zone.xfr_in.timer
        ∧ (zones_axfrin_poll env s zone e).2.1.xfr_in.master = zone.xfr_in.master
        ∧ (zones_axfrin_poll env s zone e).2.1.xfr_in.ifaces = zone.xfr_in.ifaces := by
      refine ⟨?_, ?_, ?_⟩ <;>
        by_cases hexp : zone.xfr_in.expire = 0 <;>
          simp [zones_axfrin_poll, hsend, hexp]
    refine ⟨Or.inr ⟨h1, h2, h3, h4, hnid⟩, ?_, ?_, hframe.1, hframe.2.1, hframe.2.2⟩
    · intro h
      rw [h] at h3
      omega
    · intro h
      exact absurd h4 h
  · refine ⟨Or.inl ?_, fun _ => ?_, fun _ => ?_, ?_, ?_, ?_⟩ <;>
      by_cases hexp : zone.xfr_in.expire = 0 <;>
        simp [zones_axfrin_poll, hsend, hexp]

/-- Witness for claim C10 at the concrete firing of `e_w9` (full send). -/
theorem zones_axfrin_poll_frame_witness :
    ((zones_axfrin_poll penv_w sch_w9 zone_w9 e_w9).2.1.xfr_in.next_id =
        zone_w9.xfr_in.next_id
      ∨ (penv_w.create_ret = 0 ∧ zone_w9.xfr_in.ifaces.isSome = true
         ∧ poll_find_sock (zone_w9.xfr_in.ifaces.getD []) zone_w9.xfr_in.master.family > -1
         ∧ penv_w.sendto (poll_find_sock (zone_w9.xfr_in.ifaces.getD [])
             zone_w9.xfr_in.master.family) = (penv_w.buflen : Int)
         ∧ (zones_axfrin_poll penv_w sch_w9 zone_w9 e_w9).2.1.xfr_in.next_id =
             (penv_w.wire_id : Int)))
    ∧ (poll_find_sock (zone_w9.xfr_in.ifaces.getD []) zone_w9.xfr_in.master.family = -1 →
        (zones_axfrin_poll penv_w sch_w9 zone_w9 e_w9).2.1.xfr_in.next_id =
          zone_w9.xfr_in.next_id)
    ∧ (penv_w.sendto (poll_find_sock (zone_w9.xfr_in.ifaces.getD [])
          zone_w9.xfr_in.master.family) ≠ (penv_w.buflen : Int) →
        (zones_axfrin_poll penv_w sch_w9 zone_w9 e_w9).2.1.xfr_in.next_id =
          zone_w9.xfr_in.next_id)
    ∧ (zones_axfrin_poll penv_w sch_w9 zone_w9 e_w9).2.1.xfr_in.timer =
        zone_w9.xfr_in.timer
    ∧ (zones_axfrin_poll penv_w sch_w9 zone_w9 e_w9).2.1.xfr_in.master =
        zone_w9.xfr_in.master
    ∧ (zones_axfrin_poll penv_w sch_w9 zone_w9 e_w9).2.1.xfr_in.ifaces =
        zone_w9.xfr_in.ifaces :=
  zones_axfrin_poll_frame penv_w sch_w9 zone_w9 e_w9 (by decide) (by decide)

/-- Claim C5: for every configured zone the reconciler decides to reload
exactly when the zone is absent from the old database or the stored version
is strictly below the source file's mtime; otherwise (carry-over) the new
database ends up mapping the zone's name to the very zone object the old
database held (same identity), mutated in place by the ACL/master/timers
update.  Hypotheses: the old database keys zones by their apex name,
configured names are distinct, and a compiled file configured for a zone
decodes to that zone's name. -/
theorem zones_insert_zones_reconcile (env : recon_env_t) (ifaces : List iface_t)
    (db_old : dnslib_zonedb_t) (conf : List conf_zone_t) (sch0 : evsched_t)
    (fresh0 : Nat)
    (hdb : ∀ p ∈ db_old, (p.2).name = p.1)
    (hnodup : (conf.map conf_zone_t.name).Nodup)
    (hload : ∀ z' ∈ conf, ∀ fn zd, z'.db = some fn →
      env.zload_load fn = some zd → zd.1 = z'.name)
    (z : conf_zone_t) (hz : z ∈ conf) :
    (zones_reload_decision env db_old z = true ↔
      dnslib_zonedb_find_zone db_old z.name = none ∨
      ∃ zo, dnslib_zonedb_find_zone db_old z.name = some zo
        ∧ zo.version < env.mtime z.file)
    ∧ (∀ zo, dnslib_zonedb_find_zone db_old z.name = some zo →
        zones_reload_decision env db_old z = false →
        ∃ zn, dnslib_zonedb_find_zone
            (zones_insert_zones env ifaces db_old conf sch0 fresh0).db_new z.name =
              some zn
          ∧ zn.id = zo.id) := by
  constructor
  · cases hf : dnslib_zonedb_find_zone db_old z.name with
    | none => simp [zones_reload_decision, hf]
    | some zo => simp [zones_reload_decision, hf]
  · intro zo hfound hdec
    obtain ⟨l1, l2, rfl⟩ := List.append_of_mem hz
    rw [List.map_append, List.map_cons] at hnodup
    rw [List.nodup_append] at hnodup
    obtain ⟨-, hcons, hdisj⟩ := hnodup
    have hne1 : ∀ z' ∈ l1, z'.name ≠ z.name := by
      intro z' hz' heq
      exact hdisj (List.mem_map_of_mem conf_zone_t.name hz')
        (by rw [heq]; exact List.mem_cons_self _ _)
    have hne2 : ∀ z' ∈ l2, z'.name ≠ z.name := by
      intro z' hz' heq
      exact (List.nodup_cons.mp hcons).1 (heq ▸ List.mem_map_of_mem conf_zone_t.name hz')
    have hname : zo.name = z.name := find_name db_old z.name zo hdb hfound
    unfold zones_insert_zones
    rw [List.foldl_append, List.foldl_cons]
    have h1 : dnslib_zonedb_find_zone
        (l1.foldl (zones_insert_step env ifaces db_old)
          { sch := sch0, db_new := [], fresh := fresh0, inserted := 0 }).db_new z.name =
          none := by
      rw [zones_insert_fold_find_other env ifaces db_old l1 _ z.name hne1
        (fun z' hz' => hload z' (List.mem_append_left _ hz')) hdb]
      rfl
    have h2 := zones_insert_step_carry env ifaces db_old
      (l1.foldl (zones_insert_step env ifaces db_old)
        { sch := sch0, db_new := [], fresh := fresh0, inserted := 0 }) z zo
      hfound hname h1 hdec
    have h3 := zones_insert_fold_find_other env ifaces db_old l2
      (zones_insert_step env ifaces db_old
        (l1.foldl (zones_insert_step env ifaces db_old)
          { sch := sch0, db_new := [], fresh := fresh0, inserted := 0 }) z) z.name hne2
      (fun z' hz' => hload z' (List.mem_append_right _ (List.mem_cons_of_mem _ hz'))) hdb
    refine ⟨(zones_update_zone env
      (l1.foldl (zones_insert_step env ifaces db_old)
        { sch := sch0, db_new := [], fresh := fresh0, inserted := 0 }).sch
      ifaces zo z).2, ?_, ?_⟩
    · rw [h3, h2]
    · exact zones_update_zone_id env _ ifaces zo z

/-- Witness for claim C5: the carried-over zone `zone_c3` keeps its identity
in the reconciled database. -/
theorem zones_insert_zones_reconcile_witness :
    ∃ zn, dnslib_zonedb_find_zone
        (zones_insert_zones env_all_ok [] db_old_c3 [conf_c3] evsched_new 100).db_new
        conf_c3.name = some zn ∧ zn.id = zone_c3.id :=
  (zones_insert_zones_reconcile env_all_ok [] db_old_c3 [conf_c3] evsched_new 100
      (by decide) (by decide)
      (fun _ _ fn zd _ hld => by simp [env_all_ok] at hld)
      conf_c3 (by decide)).2
    zone_c3 (by decide) (by decide)

end Zones
